import Mathlib

/-!
Shallow embedding of the Donut `DeviceManager` (src/src/app/DeviceManager.cpp and
its header): render-pass list management, input dispatch, the resize protocol
(`UpdateWindowSize`, `BackBufferResizing`, `BackBufferResized`), frame-time
averaging (`UpdateAverageFrameTime`), the per-tick orchestration
(`AnimateRenderPresent`, `RunMessageLoop`), and the framebuffer accessors
(`GetFramebuffer`, `GetCurrentFramebuffer`).

Render passes are identified by a natural number standing for the C++ pointer
(`IRenderPass *`); `std::list<IRenderPass*>` becomes `List PassPtr`.  The
virtual handlers of a pass are given by an environment `PassPtr → HandlerSet`.
Backend virtual methods (`ResizeSwapChain`, `BeginFrame`, `Present`,
`GetBackBufferCount`, ...) are modelled as oracle inputs; observable calls are
recorded as an `Event` trace.  `double` time values become `ℚ`.
-/

namespace Donut

/-- A render-pass pointer (`IRenderPass *`). -/
abbrev PassPtr := Nat

/-- `nvrhi::GraphicsAPI`. -/
inductive GraphicsAPI where
  | d3d11
  | d3d12
  | vulkan
deriving DecidableEq, Repr

/-- A framebuffer handle: `createFramebuffer(FramebufferDesc().addColorAttachment(GetBackBuffer(index)))`
is determined by the backbuffer index it wraps and the swapchain generation it was built against. -/
structure Framebuffer where
  backBuffer : Nat
  scGen : Nat
deriving DecidableEq, Repr

/-- Observable calls made by the `DeviceManager` on passes, hooks and the backend. -/
inductive Event where
  | passResizing (p : PassPtr)
  | resizeSwapChain
  | passResized (p : PassPtr) (w h sampleCount : Nat)
  | rebuildFramebuffer (i : Nat)
  | displayScaleChanged (p : PassPtr)
  | beforeAnimate (f : Nat)
  | animatePass (p : PassPtr)
  | afterAnimate (f : Nat)
  | beginFrame
  | beforeRender (f : Nat)
  | renderPass (p : PassPtr)
  | afterRender (f : Nat)
  | beforePresent (f : Nat)
  | present
  | afterPresent (f : Nat)
  | runGarbageCollection
  | waitForIdle
deriving DecidableEq, Repr

/-- The virtual input/focus handlers of one `IRenderPass`. -/
structure HandlerSet where
  keyboardUpdate : Int → Int → Int → Int → Bool
  keyboardCharInput : Nat → Int → Bool
  mousePosUpdate : ℚ → ℚ → Bool
  mouseButtonUpdate : Int → Int → Int → Bool
  mouseScrollUpdate : ℚ → ℚ → Bool
  shouldRenderUnfocused : Bool

/-! ## Render-pass list management

`DeviceManager::AddRenderPassToFront` / `AddRenderPassToBack` /
`RemoveRenderPass` (DeviceManager.cpp lines 270-297).  `std::list::remove`
erases every element equal to the argument. -/

/-- `std::list<IRenderPass*>::remove(p)`: removes all occurrences of `p`. -/
def listRemove (l : List PassPtr) (p : PassPtr) : List PassPtr :=
  l.filter (fun x => x ≠ p)

/-- `DeviceManager::AddRenderPassToFront`: `m_vRenderPasses.remove(p); m_vRenderPasses.push_front(p)`
(the source then also invokes `p->BackBufferResizing()` and `p->BackBufferResized(...)`
on the newly added pass; that does not change the list). -/
def addRenderPassToFront (l : List PassPtr) (p : PassPtr) : List PassPtr :=
  p :: listRemove l p

/-- `DeviceManager::AddRenderPassToBack`: `m_vRenderPasses.remove(p); m_vRenderPasses.push_back(p)`. -/
def addRenderPassToBack (l : List PassPtr) (p : PassPtr) : List PassPtr :=
  listRemove l p ++ [p]

/-- `DeviceManager::RemoveRenderPass`: `m_vRenderPasses.remove(p)`. -/
def removeRenderPass (l : List PassPtr) (p : PassPtr) : List PassPtr :=
  listRemove l p

/-- One call against the render-pass list. -/
inductive PassOp where
  | toFront (p : PassPtr)
  | toBack (p : PassPtr)
  | remove (p : PassPtr)
deriving DecidableEq, Repr

/-- Apply one pass-list operation. -/
def applyPassOp (l : List PassPtr) : PassOp → List PassPtr
  | .toFront p => addRenderPassToFront l p
  | .toBack p => addRenderPassToBack l p
  | .remove p => removeRenderPass l p

/-- Apply a sequence of pass-list operations starting from the empty list. -/
def applyPassOps (ops : List PassOp) : List PassPtr :=
  ops.foldl applyPassOp []

/-! ## Input dispatch

Each of `KeyboardUpdate`, `KeyboardCharInput`, `MousePosUpdate`,
`MouseButtonUpdate`, `MouseScrollUpdate` (DeviceManager.cpp lines 575-629)
iterates `m_vRenderPasses.crbegin() .. crend()` — i.e. the list from its back
to its front — calling the pass handler and breaking on the first `true`.
The result records the passes whose handlers were invoked, in invocation
order, and whether some handler consumed the event. -/

/-- The `crbegin..crend` loop body, applied to an already-reversed list. -/
def dispatchLoop (h : PassPtr → Bool) : List PassPtr → List PassPtr × Bool
  | [] => ([], false)
  | p :: rest =>
    if h p then ([p], true)
    else
      let r := dispatchLoop h rest
      (p :: r.1, r.2)

/-- `DeviceManager::KeyboardUpdate`. -/
def keyboardUpdate (env : PassPtr → HandlerSet) (l : List PassPtr)
    (key scancode action mods : Int) : List PassPtr × Bool :=
  dispatchLoop (fun p => (env p).keyboardUpdate key scancode action mods) l.reverse

/-- `DeviceManager::KeyboardCharInput`. -/
def keyboardCharInput (env : PassPtr → HandlerSet) (l : List PassPtr)
    (unicode : Nat) (mods : Int) : List PassPtr × Bool :=
  dispatchLoop (fun p => (env p).keyboardCharInput unicode mods) l.reverse

/-- `DeviceManager::MousePosUpdate`: divides the coordinates by the DPI scale
factors unless `supportExplicitDisplayScaling` is set, then dispatches. -/
def mousePosUpdate (env : PassPtr → HandlerSet) (supportExplicitDisplayScaling : Bool)
    (dpiX dpiY : ℚ) (l : List PassPtr) (xpos ypos : ℚ) : List PassPtr × Bool :=
  let x := if supportExplicitDisplayScaling then xpos else xpos / dpiX
  let y := if supportExplicitDisplayScaling then ypos else ypos / dpiY
  dispatchLoop (fun p => (env p).mousePosUpdate x y) l.reverse

/-- `DeviceManager::MouseButtonUpdate`. -/
def mouseButtonUpdate (env : PassPtr → HandlerSet) (l : List PassPtr)
    (button action mods : Int) : List PassPtr × Bool :=
  dispatchLoop (fun p => (env p).mouseButtonUpdate button action mods) l.reverse

/-- `DeviceManager::MouseScrollUpdate`. -/
def mouseScrollUpdate (env : PassPtr → HandlerSet) (l : List PassPtr)
    (xoffset yoffset : ℚ) : List PassPtr × Bool :=
  dispatchLoop (fun p => (env p).mouseScrollUpdate xoffset yoffset) l.reverse

/-- `DeviceManager::ShouldRenderUnfocused`: reverse iteration returning on the
first pass that answers `true`. -/
def shouldRenderUnfocused (env : PassPtr → HandlerSet) (l : List PassPtr) : Bool :=
  l.reverse.any (fun p => (env p).shouldRenderUnfocused)

/-! ## Device-manager state

The fields of `DeviceManager` (and of its embedded `m_DeviceParams`) that the
specified behaviour reads or writes.  The backend-owned quantities
(`GetBackBufferCount()`, the swapchain identity) are mirrored here: `scGen`
counts swapchain (re)creations, so "a framebuffer over backbuffer `i` of the
current swapchain" is `Framebuffer.mk i scGen`. -/
structure DMState where
  vRenderPasses : List PassPtr
  backBufferWidth : Nat
  backBufferHeight : Nat
  swapChainSampleCount : Nat
  vsyncEnabled : Bool
  requestedVSync : Bool
  graphicsAPI : GraphicsAPI
  windowVisible : Bool
  windowIsInFocus : Bool
  swapChainFramebuffers : List Framebuffer
  scGen : Nat
  backBufferCount : Nat
  skipRenderOnFirstFrame : Bool
  frameIndex : Nat
  frameTimeSum : ℚ
  numberOfAccumulatedFrames : Nat
  averageFrameTime : ℚ
  averageTimeUpdateInterval : ℚ
  dpiScaleFactorX : ℚ
  dpiScaleFactorY : ℚ
  prevDPIScaleFactorX : ℚ
  prevDPIScaleFactorY : ℚ
deriving DecidableEq, Repr

/-! ## Resize protocol -/

/-- `DeviceManager::BackBufferResizing` (lines 299-307): clears
`m_SwapChainFramebuffers`, then calls `BackBufferResizing()` on every pass in
list order. -/
def backBufferResizing (s : DMState) : DMState × List Event :=
  ({ s with swapChainFramebuffers := [] },
   s.vRenderPasses.map Event.passResizing)

/-- `std::vector::resize(n)`: keeps the first `n` elements, appends
default-constructed (null) handles when growing. -/
def vectorResize (l : List Framebuffer) (n : Nat) : List Framebuffer :=
  l.take n ++ List.replicate (n - l.length) (Framebuffer.mk 0 0)

/-- `GetDevice()->createFramebuffer(FramebufferDesc().addColorAttachment(GetBackBuffer(index)))`. -/
def createFramebuffer (s : DMState) (index : Nat) : Framebuffer :=
  Framebuffer.mk index s.scGen

/-- The `for (index = 0; index < backBufferCount; index++)` assignment loop in
`DeviceManager::BackBufferResized`. -/
def rebuildFramebuffersLoop (s : DMState) (fbs : List Framebuffer) : Nat → List Framebuffer
  | 0 => fbs
  | n + 1 => (rebuildFramebuffersLoop s fbs n).set n (createFramebuffer s n)

/-- `DeviceManager::BackBufferResized` (lines 309-325): first notifies every
pass with `BackBufferResized(width, height, sampleCount)`, then resizes the
framebuffer vector to `GetBackBufferCount()` and rebuilds one framebuffer per
backbuffer. -/
def backBufferResized (s : DMState) : DMState × List Event :=
  let notifications := s.vRenderPasses.map
    (fun p => Event.passResized p s.backBufferWidth s.backBufferHeight s.swapChainSampleCount)
  let count := s.backBufferCount
  let fbs := rebuildFramebuffersLoop s (vectorResize s.swapChainFramebuffers count) count
  ({ s with swapChainFramebuffers := fbs },
   notifications ++ (List.range count).map Event.rebuildFramebuffer)

/-- The backend virtual `ResizeSwapChain()`: recreates the swapchain (new
generation); the backbuffer count afterwards is an oracle input `newCount`. -/
def resizeSwapChain (s : DMState) (newCount : Nat) : DMState × List Event :=
  ({ s with scGen := s.scGen + 1, backBufferCount := newCount },
   [Event.resizeSwapChain])

/-- `DeviceManager::UpdateWindowSize` (lines 518-554).  `winSize` is what
`ANativeWindow_getWidth/Height` report (`none` models `m_NativeWindow ==
nullptr`); `newCount` is the backbuffer count after a swapchain resize. -/
def updateWindowSize (s : DMState) (winSize : Option (Nat × Nat)) (newCount : Nat) :
    DMState × List Event :=
  match winSize with
  | none => ({ s with windowVisible := false }, [])
  | some (width, height) =>
    if width = 0 ∨ height = 0 then
      ({ s with windowVisible := false }, [])
    else
      let s0 := { s with windowVisible := true, windowIsInFocus := true }
      if s0.backBufferWidth ≠ width ∨ s0.backBufferHeight ≠ height ∨
          (s0.vsyncEnabled ≠ s0.requestedVSync ∧ s0.graphicsAPI = GraphicsAPI.vulkan) then
        let r1 := backBufferResizing s0
        let s2 := { r1.1 with backBufferWidth := width, backBufferHeight := height,
                              vsyncEnabled := s0.requestedVSync }
        let r3 := resizeSwapChain s2 newCount
        let r4 := backBufferResized r3.1
        ({ r4.1 with vsyncEnabled := r4.1.requestedVSync },
         r1.2 ++ r3.2 ++ r4.2)
      else
        ({ s0 with vsyncEnabled := s0.requestedVSync }, [])

/-! ## Frame-time averaging -/

/-- `DeviceManager::UpdateAverageFrameTime` (lines 354-365): accumulate, and
when the accumulated sum strictly exceeds `m_AverageTimeUpdateInterval`,
publish `sum / count` and reset both accumulators. -/
def updateAverageFrameTime (s : DMState) (elapsedTime : ℚ) : DMState :=
  let sum := s.frameTimeSum + elapsedTime
  let n := s.numberOfAccumulatedFrames + 1
  if s.averageTimeUpdateInterval < sum ∧ 0 < n then
    { s with averageFrameTime := sum / (n : ℚ),
             numberOfAccumulatedFrames := 0,
             frameTimeSum := 0 }
  else
    { s with frameTimeSum := sum, numberOfAccumulatedFrames := n }

/-! ## Framebuffer accessors -/

/-- `DeviceManager::GetFramebuffer` (lines 721-727): bounds-checked read of
`m_SwapChainFramebuffers`, `nullptr` (`none`) out of range. -/
def getFramebuffer (fbs : List Framebuffer) (index : Nat) : Option Framebuffer :=
  if h : index < fbs.length then some (fbs.get ⟨index, h⟩) else none

/-- `DeviceManager::GetCurrentFramebuffer` (lines 716-719):
`GetFramebuffer(GetCurrentBackBufferIndex())`; the backend-reported current
index is the argument `currentBackBufferIndex`. -/
def getCurrentFramebuffer (fbs : List Framebuffer) (currentBackBufferIndex : Nat) :
    Option Framebuffer :=
  getFramebuffer fbs currentBackBufferIndex

/-! ## Per-tick orchestration -/

/-- Oracle inputs for one tick: the elapsed wall-clock time and the results of
the backend virtuals `BeginFrame()` and `Present()`. -/
structure TickInput where
  elapsed : ℚ
  beginFrameOk : Bool
  presentOk : Bool
deriving DecidableEq, Repr

/-- The common tail of `DeviceManager::AnimateRenderPresent` (lines 489-497):
`runGarbageCollection`, `UpdateAverageFrameTime`, store the timestamp,
increment `m_FrameIndex`, return `true`. -/
def arpFinish (s : DMState) (elapsed : ℚ) (evs : List Event) : Bool × DMState × List Event :=
  let s1 := updateAverageFrameTime s elapsed
  (true, { s1 with frameIndex := s1.frameIndex + 1 }, evs ++ [Event.runGarbageCollection])

/-- `DeviceManager::AnimateRenderPresent` (lines 420-498).  Returns
(tick succeeded, state after the tick, trace of calls).  The Android gamepad
polling (`AndroidInputManager`) is a stub in the source and emitted as no
events here. -/
def animateRenderPresent (env : PassPtr → HandlerSet) (s : DMState) (t : TickInput) :
    Bool × DMState × List Event :=
  if s.windowVisible = true ∧
      (s.windowIsInFocus = true ∨ shouldRenderUnfocused env s.vRenderPasses = true) then
    let dpiChanged : Bool :=
      s.prevDPIScaleFactorX ≠ s.dpiScaleFactorX ∨ s.prevDPIScaleFactorY ≠ s.dpiScaleFactorY
    let s1 := if dpiChanged then
        { s with prevDPIScaleFactorX := s.dpiScaleFactorX,
                 prevDPIScaleFactorY := s.dpiScaleFactorY }
      else s
    let evAnimate :=
      (if dpiChanged then s.vRenderPasses.map Event.displayScaleChanged else []) ++
      Event.beforeAnimate s.frameIndex :: s.vRenderPasses.map Event.animatePass ++
      [Event.afterAnimate s.frameIndex]
    if 0 < s.frameIndex ∨ s.skipRenderOnFirstFrame = false then
      let evBegin := evAnimate ++ [Event.beginFrame]
      if t.beginFrameOk = true then
        let fi := if s.skipRenderOnFirstFrame = true then s.frameIndex - 1 else s.frameIndex
        let evRender := evBegin ++
          Event.beforeRender fi :: s.vRenderPasses.map Event.renderPass ++
          [Event.afterRender fi, Event.beforePresent fi, Event.present, Event.afterPresent fi]
        if t.presentOk = false then
          (false, s1, evRender)
        else
          arpFinish s1 t.elapsed evRender
      else
        arpFinish s1 t.elapsed evBegin
    else
      arpFinish s1 t.elapsed evAnimate
  else
    arpFinish s t.elapsed []

/-- The `while (android_app->destroyRequested == 0)` loop body of
`DeviceManager::RunMessageLoop` (lines 387-409): the tick list stands for the
loop iterations until destruction is requested; a failed
`AnimateRenderPresent` breaks out immediately. -/
def runMessageLoopAux (env : PassPtr → HandlerSet) :
    DMState → List TickInput → DMState × List Event
  | s, [] => (s, [])
  | s, t :: rest =>
    if s.windowVisible = true then
      let r := animateRenderPresent env s t
      if r.1 = true then
        let q := runMessageLoopAux env r.2.1 rest
        (q.1, r.2.2 ++ q.2)
      else
        (r.2.1, r.2.2)
    else
      runMessageLoopAux env s rest

/-- `DeviceManager::RunMessageLoop` (lines 379-418): run the loop, then
`GetDevice()->waitForIdle()` unconditionally before returning. -/
def runMessageLoop (env : PassPtr → HandlerSet) (s : DMState) (ticks : List TickInput) :
    DMState × List Event :=
  let r := runMessageLoopAux env s ticks
  (r.1, r.2 ++ [Event.waitForIdle])

/-! ## Window/device/swapchain creation -/

/-- The fields of `DeviceCreationParameters` this model reads. -/
structure DeviceCreationParameters where
  backBufferWidth : Nat
  backBufferHeight : Nat
  swapChainSampleCount : Nat
  vsyncEnabled : Bool
deriving DecidableEq, Repr

/-- `DeviceManager::CreateWindowDeviceAndSwapChain` (lines 210-268): store the
parameters and the requested vsync, create instance/device/swapchain (each an
oracle `Bool`, failure returns `none` for the C++ `false`), mark the window
visible, zero the stored backbuffer size to force a resize event, and run
`UpdateWindowSize`.  `winSize` is the native window size (`none` when
`android_app->window` is null). -/
def createWindowDeviceAndSwapChain (s : DMState) (params : DeviceCreationParameters)
    (instanceOk deviceOk swapChainOk : Bool) (winSize : Option (Nat × Nat))
    (newCount : Nat) : Option (DMState × List Event) :=
  let s0 := { s with backBufferWidth := params.backBufferWidth,
                     backBufferHeight := params.backBufferHeight,
                     swapChainSampleCount := params.swapChainSampleCount,
                     vsyncEnabled := params.vsyncEnabled,
                     requestedVSync := params.vsyncEnabled }
  if instanceOk = false then none
  else
    match winSize with
    | none => none
    | some (w, h) =>
      let s1 := { s0 with backBufferWidth := w, backBufferHeight := h }
      if deviceOk = false then none
      else if swapChainOk = false then none
      else
        let s2 := { s1 with windowVisible := true,
                            backBufferWidth := 0, backBufferHeight := 0 }
        some (updateWindowSize s2 (some (w, h)) newCount)

/-! ## Specification-side definitions and concrete states -/

/-- Closed form of the `crbegin..crend` dispatch loop over an iteration list
`l`: the invoked passes are the longest non-consuming initial segment of `l`
followed by the first consumer (when one exists), and the event is consumed
exactly when some handler in `l` returns true. -/
def dispatchSpec (h : PassPtr → Bool) (l : List PassPtr) : List PassPtr × Bool :=
  (l.takeWhile (fun p => !h p) ++ (l.dropWhile (fun p => !h p)).take 1, l.any h)

/-- An environment in which every pass consumes every input event. -/
def allConsumeEnv : PassPtr → HandlerSet := fun _ =>
  { keyboardUpdate := fun _ _ _ _ => true
    keyboardCharInput := fun _ _ => true
    mousePosUpdate := fun _ _ => true
    mouseButtonUpdate := fun _ _ _ => true
    mouseScrollUpdate := fun _ _ => true
    shouldRenderUnfocused := false }

/-- An environment in which no pass consumes any input event and none renders
unfocused. -/
def noConsumeEnv : PassPtr → HandlerSet := fun _ =>
  { keyboardUpdate := fun _ _ _ _ => false
    keyboardCharInput := fun _ _ => false
    mousePosUpdate := fun _ _ => false
    mouseButtonUpdate := fun _ _ _ => false
    mouseScrollUpdate := fun _ _ => false
    shouldRenderUnfocused := false }

/-- A concrete manager state used by witnesses and counterexamples: one
registered pass (7), swapchain created but no size assigned yet, source
default accumulation interval 0.5 s. -/
def testState : DMState :=
  { vRenderPasses := [7]
    backBufferWidth := 0
    backBufferHeight := 0
    swapChainSampleCount := 1
    vsyncEnabled := false
    requestedVSync := false
    graphicsAPI := GraphicsAPI.vulkan
    windowVisible := true
    windowIsInFocus := true
    swapChainFramebuffers := []
    scGen := 0
    backBufferCount := 0
    skipRenderOnFirstFrame := false
    frameIndex := 0
    frameTimeSum := 0
    numberOfAccumulatedFrames := 0
    averageFrameTime := 0
    averageTimeUpdateInterval := 1 / 2
    dpiScaleFactorX := 1
    dpiScaleFactorY := 1
    prevDPIScaleFactorX := 1
    prevDPIScaleFactorY := 1 }

/-- The resize trigger condition as the amended specification states it: the
window surface pixel size differs from the stored backbuffer size, or the
requested vsync setting differs from the stored one while the graphics API is
Vulkan. -/
def specResizeTrigger (s : DMState) (width height : Nat) : Prop :=
  s.backBufferWidth ≠ width ∨ s.backBufferHeight ≠ height ∨
    (s.vsyncEnabled ≠ s.requestedVSync ∧ s.graphicsAPI = GraphicsAPI.vulkan)

instance (s : DMState) (width height : Nat) : Decidable (specResizeTrigger s width height) := by
  unfold specResizeTrigger
  infer_instance

/-- A state whose stored vsync flag differs from the requested one on a
non-Vulkan API, with the stored backbuffer size matching the window. -/
def c9State : DMState :=
  { testState with graphicsAPI := GraphicsAPI.d3d11, vsyncEnabled := true,
                   requestedVSync := false, backBufferWidth := 2, backBufferHeight := 2 }

/-- The `DisplayScaleChanged` notifications emitted at the top of a tick when
the DPI scale factors changed since the previous tick. -/
def dpiEvents (s : DMState) : List Event :=
  let dpiChanged : Bool :=
    s.prevDPIScaleFactorX ≠ s.dpiScaleFactorX ∨ s.prevDPIScaleFactorY ≠ s.dpiScaleFactorY
  if dpiChanged then s.vRenderPasses.map Event.displayScaleChanged else []

/-- `testState` with the skip-render-on-first-frame mode enabled. -/
def skipState : DMState := { testState with skipRenderOnFirstFrame := true }

/-- Creation parameters matching the specification's end-to-end scenario. -/
def c8Params : DeviceCreationParameters := DeviceCreationParameters.mk 1280 720 1 false

/-- The successful creation result for `testState` with a 1280 by 720 native
window and three backbuffers. -/
def c8Pair : DMState × List Event :=
  (createWindowDeviceAndSwapChain testState c8Params true true true
    (some (1280, 720)) 3).getD (testState, [])

/-! ## Helper lemmas -/

theorem listRemove_not_mem (l : List PassPtr) (p : PassPtr) : p ∉ listRemove l p := by
  simp [listRemove]

theorem listRemove_nodup {l : List PassPtr} (h : l.Nodup) (p : PassPtr) :
    (listRemove l p).Nodup :=
  h.filter _

theorem listRemove_count (l : List PassPtr) (p : PassPtr) :
    (listRemove l p).count p = 0 :=
  List.count_eq_zero.mpr (listRemove_not_mem l p)

theorem applyPassOp_nodup {l : List PassPtr} (h : l.Nodup) (op : PassOp) :
    (applyPassOp l op).Nodup := by
  cases op with
  | toFront p =>
    exact List.nodup_cons.mpr ⟨listRemove_not_mem l p, listRemove_nodup h p⟩
  | toBack p =>
    refine List.Nodup.append (listRemove_nodup h p) (List.nodup_singleton p) ?_
    intro a ha hb
    rw [List.mem_singleton] at hb
    exact listRemove_not_mem l p (hb ▸ ha)
  | remove p => exact listRemove_nodup h p

theorem applyPassOps_loop_nodup (ops : List PassOp) :
    ∀ l : List PassPtr, l.Nodup → (ops.foldl applyPassOp l).Nodup := by
  induction ops with
  | nil => intro l h; exact h
  | cons op rest ih =>
    intro l h
    exact ih (applyPassOp l op) (applyPassOp_nodup h op)

/-- C4: for every sequence of AddRenderPassToFront, AddRenderPassToBack and
RemoveRenderPass calls starting from the empty render-pass list, the resulting
list contains each pass at most once (it is duplicate-free); AddRenderPassToFront
leaves the pass at the front with exactly one occurrence, AddRenderPassToBack
leaves it at the back with exactly one occurrence (so re-adding an already
registered pass moves it to the new position), and RemoveRenderPass removes it. -/
theorem C4_pass_list_ops (ops : List PassOp) (l : List PassPtr) (p : PassPtr) :
    (applyPassOps ops).Nodup ∧
    (addRenderPassToFront l p).head? = some p ∧
    (addRenderPassToFront l p).count p = 1 ∧
    (addRenderPassToBack l p).getLast? = some p ∧
    (addRenderPassToBack l p).count p = 1 ∧
    p ∉ removeRenderPass l p := by
  refine ⟨applyPassOps_loop_nodup ops [] List.nodup_nil, rfl, ?_, ?_, ?_, listRemove_not_mem l p⟩
  · simp [addRenderPassToFront, listRemove_count]
  · simp [addRenderPassToBack]
  · simp [addRenderPassToBack, List.count_append, listRemove_count]

theorem dispatchLoop_eq_spec (h : PassPtr → Bool) (l : List PassPtr) :
    dispatchLoop h l = dispatchSpec h l := by
  induction l with
  | nil => rfl
  | cons p rest ih =>
    by_cases hp : h p = true
    · simp [dispatchLoop, dispatchSpec, hp]
    · rw [Bool.not_eq_true] at hp
      simp [dispatchLoop, dispatchSpec, hp, ih]

theorem dispatchLoop_no_consume (h : PassPtr → Bool) (l : List PassPtr)
    (hnone : ∀ p ∈ l, h p = false) :
    dispatchLoop h l = (l, false) := by
  rw [dispatchLoop_eq_spec]
  unfold dispatchSpec
  have ht : l.takeWhile (fun p => !h p) = l := by
    apply List.takeWhile_eq_self_iff.mpr
    intro p hp
    simp [hnone p hp]
  have hd : l.dropWhile (fun p => !h p) = [] := by
    apply List.dropWhile_eq_nil_iff.mpr
    intro p hp
    simp [hnone p hp]
  have ha : l.any h = false := by
    simp only [List.any_eq_false]
    intro p hp
    simp [hnone p hp]
  rw [ht, hd, ha]
  simp

/-- C3, counterexample: with pass 1 added to the front and then pass 2 added to
the front, the list is `[2, 1]` (pass 2 — the most recently added-to-front —
is at the front), every handler consumes, yet a key event invokes only the
handler of pass 1: the iteration starts at the back of the list, so the most
recently added-to-front pass does not receive the event first, refuting the
claimed dispatch order. -/
theorem C3_counterexample :
    addRenderPassToFront (addRenderPassToFront [] 1) 2 = [2, 1] ∧
    (keyboardUpdate allConsumeEnv (addRenderPassToFront (addRenderPassToFront [] 1) 2)
        0 0 0 0).1 = [1] ∧
    (1 : PassPtr) ≠ 2 := by
  exact ⟨rfl, rfl, by decide⟩

/-- C3, amended: every input-event dispatcher (keyboard key, keyboard char,
mouse position, mouse button, mouse scroll) iterates the render-pass list from
its back to its front — so the front (most recently added-to-front) pass
receives the event last, not first — calling each matching handler and
stopping on the first handler that returns true: the invoked passes are the
longest non-consuming initial segment of the reversed list plus the first
consumer, so no pass after a consumer receives the event; when no handler
consumes the event, every registered pass is invoked exactly once. -/
theorem C3_input_dispatch (env : PassPtr → HandlerSet) (l : List PassPtr)
    (key scancode action mods : Int) (unicode : Nat) (cmods : Int)
    (explicitScaling : Bool) (dpiX dpiY xpos ypos xoffset yoffset : ℚ)
    (button bact bmods : Int) :
    keyboardUpdate env l key scancode action mods =
      dispatchSpec (fun p => (env p).keyboardUpdate key scancode action mods) l.reverse ∧
    keyboardCharInput env l unicode cmods =
      dispatchSpec (fun p => (env p).keyboardCharInput unicode cmods) l.reverse ∧
    mousePosUpdate env explicitScaling dpiX dpiY l xpos ypos =
      dispatchSpec (fun p => (env p).mousePosUpdate
        (if explicitScaling then xpos else xpos / dpiX)
        (if explicitScaling then ypos else ypos / dpiY)) l.reverse ∧
    mouseButtonUpdate env l button bact bmods =
      dispatchSpec (fun p => (env p).mouseButtonUpdate button bact bmods) l.reverse ∧
    mouseScrollUpdate env l xoffset yoffset =
      dispatchSpec (fun p => (env p).mouseScrollUpdate xoffset yoffset) l.reverse ∧
    ((∀ p ∈ l, (env p).keyboardUpdate key scancode action mods = false) →
      keyboardUpdate env l key scancode action mods = (l.reverse, false) ∧
      ∀ q ∈ l, l.Nodup →
        (keyboardUpdate env l key scancode action mods).1.count q = 1) := by
  refine ⟨dispatchLoop_eq_spec _ _, dispatchLoop_eq_spec _ _, dispatchLoop_eq_spec _ _,
    dispatchLoop_eq_spec _ _, dispatchLoop_eq_spec _ _, ?_⟩
  intro hnone
  have hrev : ∀ p ∈ l.reverse, (env p).keyboardUpdate key scancode action mods = false := by
    intro p hp
    exact hnone p (List.mem_reverse.mp hp)
  have heq : keyboardUpdate env l key scancode action mods = (l.reverse, false) :=
    dispatchLoop_no_consume _ _ hrev
  refine ⟨heq, ?_⟩
  intro q hq hnd
  rw [heq]
  exact List.count_eq_one_of_mem (List.nodup_reverse.mpr hnd) (List.mem_reverse.mpr hq)

theorem vectorResize_length (l : List Framebuffer) (n : Nat) :
    (vectorResize l n).length = n := by
  simp [vectorResize]
  omega

theorem rebuildFramebuffersLoop_spec (s : DMState) (fbs : List Framebuffer) (n : Nat)
    (hlen : fbs.length = n) :
    ∀ k, k ≤ n →
      rebuildFramebuffersLoop s fbs k = (List.range k).map (createFramebuffer s) ++ fbs.drop k := by
  intro k
  induction k with
  | zero => simp [rebuildFramebuffersLoop]
  | succ k ih =>
    intro hk
    have hk1 : k ≤ n := Nat.le_of_succ_le hk
    have hklt : k < fbs.length := by omega
    rw [rebuildFramebuffersLoop, ih hk1, List.set_append]
    simp only [List.length_map, List.length_range, lt_irrefl, if_false, Nat.sub_self]
    rw [List.drop_eq_getElem_cons hklt]
    simp only [List.set_cons_succ, List.set_cons_zero]
    rw [List.range_succ]
    simp [List.append_assoc]

/-- C2: for every manager state, immediately after the BackBufferResized
processing step completes, the swap-chain framebuffer set has exactly one
entry per reported backbuffer (its size equals `GetBackBufferCount()`), and
the entry at index `i` is a framebuffer built over backbuffer `i` of the
current swapchain. -/
theorem C2_framebuffers_match_backbuffers (s : DMState) :
    (backBufferResized s).1.swapChainFramebuffers =
      (List.range (backBufferResized s).1.backBufferCount).map
        (fun i => Framebuffer.mk i (backBufferResized s).1.scGen) ∧
    (backBufferResized s).1.swapChainFramebuffers.length =
      (backBufferResized s).1.backBufferCount := by
  have hlen := vectorResize_length s.swapChainFramebuffers s.backBufferCount
  have h := rebuildFramebuffersLoop_spec s (vectorResize s.swapChainFramebuffers s.backBufferCount)
    s.backBufferCount hlen s.backBufferCount le_rfl
  have hdrop : (vectorResize s.swapChainFramebuffers s.backBufferCount).drop s.backBufferCount = [] := by
    rw [List.drop_eq_nil_iff]
    omega
  rw [hdrop, List.append_nil] at h
  constructor
  · simp only [backBufferResized, h]
    simp [createFramebuffer]
  · simp only [backBufferResized, h]
    simp

/-- C1, counterexample: resizing `testState` (one registered pass, 7) to a 2 by 2
window makes `UpdateWindowSize` emit the pass notification
`BackBufferResized(2, 2, 1)` at trace position 2, strictly before the
framebuffer rebuild at position 3 — the rebuild does not complete before the
pass receives `BackBufferResized`, refuting the claimed order. -/
theorem C1_counterexample :
    (updateWindowSize testState (some (2, 2)) 1).2 =
      [Event.passResizing 7, Event.resizeSwapChain,
       Event.passResized 7 2 2 1, Event.rebuildFramebuffer 0] ∧
    (updateWindowSize testState (some (2, 2)) 1).2.get? 2 = some (Event.passResized 7 2 2 1) ∧
    (updateWindowSize testState (some (2, 2)) 1).2.get? 3 = some (Event.rebuildFramebuffer 0) := by
  refine ⟨?_, ?_, ?_⟩ <;> rfl

/-- C1, amended: for every resize event processed by `UpdateWindowSize` that
triggers the resize sequence, the steps occur in this exact order:
`BackBufferResizing()` is invoked on every registered pass, then the backend
swapchain resize runs, then `BackBufferResized(width, height, sampleCount)` is
invoked on every registered pass, and only then is one framebuffer rebuilt per
current backbuffer — the pass notifications complete before the framebuffer
rebuild (not after it, as originally claimed). -/
theorem C1_resize_order (s : DMState) (width height newCount : Nat)
    (hw : width ≠ 0) (hh : height ≠ 0)
    (htrig : s.backBufferWidth ≠ width ∨ s.backBufferHeight ≠ height ∨
      (s.vsyncEnabled ≠ s.requestedVSync ∧ s.graphicsAPI = GraphicsAPI.vulkan)) :
    (updateWindowSize s (some (width, height)) newCount).2 =
      s.vRenderPasses.map Event.passResizing ++
      [Event.resizeSwapChain] ++
      s.vRenderPasses.map (fun p => Event.passResized p width height s.swapChainSampleCount) ++
      (List.range newCount).map Event.rebuildFramebuffer := by
  rw [updateWindowSize]
  rw [if_neg (by push_neg; exact ⟨hw, hh⟩)]
  rw [if_pos (by simpa using htrig)]
  simp [backBufferResizing, resizeSwapChain, backBufferResized]

/-- C1 witness: the amended order theorem applied to `testState` with a 2 by 2
window and one backbuffer. -/
theorem C1_resize_order_witness :
    (updateWindowSize testState (some (2, 2)) 1).2 =
      testState.vRenderPasses.map Event.passResizing ++
      [Event.resizeSwapChain] ++
      testState.vRenderPasses.map (fun p => Event.passResized p 2 2 testState.swapChainSampleCount) ++
      (List.range 1).map Event.rebuildFramebuffer :=
  C1_resize_order testState 2 2 1 (by decide) (by decide) (by left; decide)

/-- C5, counterexample: with the default 0.5 s interval and accumulators at
zero, one call with elapsed time exactly 0.5 reaches an accumulated total equal
to (hence at least) the interval, yet the published average stays 0 (it does
not become 0.5/1) and the accumulators are not reset, because the source tests
`m_FrameTimeSum > m_AverageTimeUpdateInterval` strictly. -/
theorem C5_counterexample :
    testState.averageTimeUpdateInterval ≤ testState.frameTimeSum + 1 / 2 ∧
    (updateAverageFrameTime testState (1 / 2)).averageFrameTime = 0 ∧
    (0 : ℚ) ≠ (testState.frameTimeSum + 1 / 2) / (testState.numberOfAccumulatedFrames + 1 : ℚ) ∧
    (updateAverageFrameTime testState (1 / 2)).frameTimeSum = 1 / 2 ∧
    (updateAverageFrameTime testState (1 / 2)).numberOfAccumulatedFrames = 1 := by
  refine ⟨by norm_num [testState], ?_, by norm_num [testState], ?_, ?_⟩ <;>
    norm_num [testState, updateAverageFrameTime]

/-- C5, amended: `UpdateAverageFrameTime` accumulates the elapsed time and the
frame count on every call; the published average changes exactly when the
accumulated total strictly exceeds the configured interval (not merely
reaches it), at which point it equals the accumulated time divided by the
number of accumulated frames and both accumulators are reset to zero;
otherwise the published average is unchanged. -/
theorem C5_update_average (s : DMState) (e : ℚ) :
    (s.averageTimeUpdateInterval < s.frameTimeSum + e →
      (updateAverageFrameTime s e).averageFrameTime =
        (s.frameTimeSum + e) / (s.numberOfAccumulatedFrames + 1 : ℚ) ∧
      (updateAverageFrameTime s e).frameTimeSum = 0 ∧
      (updateAverageFrameTime s e).numberOfAccumulatedFrames = 0) ∧
    (¬ s.averageTimeUpdateInterval < s.frameTimeSum + e →
      (updateAverageFrameTime s e).averageFrameTime = s.averageFrameTime ∧
      (updateAverageFrameTime s e).frameTimeSum = s.frameTimeSum + e ∧
      (updateAverageFrameTime s e).numberOfAccumulatedFrames =
        s.numberOfAccumulatedFrames + 1) := by
  constructor
  · intro hlt
    have hc : s.averageTimeUpdateInterval < s.frameTimeSum + e ∧
        0 < s.numberOfAccumulatedFrames + 1 := ⟨hlt, Nat.succ_pos _⟩
    simp only [updateAverageFrameTime, if_pos hc]
    norm_num
  · intro hge
    have hc : ¬ (s.averageTimeUpdateInterval < s.frameTimeSum + e ∧
        0 < s.numberOfAccumulatedFrames + 1) := by
      intro hcon
      exact hge hcon.1
    simp only [updateAverageFrameTime, if_neg hc]
    norm_num

/-- C5 witness: the amended averaging theorem applied to `testState` with one
second of elapsed time (strictly above the 0.5 s interval): the average
becomes 1/1 = 1 and the accumulators reset. -/
theorem C5_update_average_witness :
    (updateAverageFrameTime testState 1).averageFrameTime =
      (testState.frameTimeSum + 1) / (testState.numberOfAccumulatedFrames + 1 : ℚ) ∧
    (updateAverageFrameTime testState 1).frameTimeSum = 0 ∧
    (updateAverageFrameTime testState 1).numberOfAccumulatedFrames = 0 :=
  (C5_update_average testState 1).1 (by norm_num [testState])

/-- C9, counterexample: in `c9State` the effective (requested) vsync setting
differs from the stored device parameters and the window is visible with
non-zero size matching the stored backbuffer size, yet `UpdateWindowSize`
emits no call at all — no pass is notified and no swapchain resize runs,
because the source additionally requires the graphics API to be Vulkan for a
vsync-only resize; this refutes the claimed "if and only if". -/
theorem C9_counterexample :
    c9State.vsyncEnabled ≠ c9State.requestedVSync ∧
    c9State.backBufferWidth = 2 ∧ c9State.backBufferHeight = 2 ∧
    c9State.graphicsAPI ≠ GraphicsAPI.vulkan ∧
    (updateWindowSize c9State (some (2, 2)) 1).2 = [] := by
  refine ⟨by decide, rfl, rfl, by decide, rfl⟩

/-- C9, amended: for every state with a visible window of non-zero size,
`UpdateWindowSize` triggers the full resize sequence if and only if the window
pixel size differs from the stored backbuffer dimensions, or the requested
vsync setting differs from the stored one AND the graphics API is Vulkan
(`specResizeTrigger`); when that condition fails, no pass is notified (the
call trace is empty) and the stored device parameters other than the vsync
flag are left unchanged. -/
theorem C9_resize_trigger (s : DMState) (width height newCount : Nat)
    (hw : width ≠ 0) (hh : height ≠ 0) :
    (specResizeTrigger s width height →
      (updateWindowSize s (some (width, height)) newCount).2 =
        s.vRenderPasses.map Event.passResizing ++
        [Event.resizeSwapChain] ++
        s.vRenderPasses.map (fun p => Event.passResized p width height s.swapChainSampleCount) ++
        (List.range newCount).map Event.rebuildFramebuffer) ∧
    (¬ specResizeTrigger s width height →
      (updateWindowSize s (some (width, height)) newCount).2 = [] ∧
      (updateWindowSize s (some (width, height)) newCount).1 =
        { s with windowVisible := true, windowIsInFocus := true,
                 vsyncEnabled := s.requestedVSync }) := by
  constructor
  · intro htrig
    rw [updateWindowSize]
    rw [if_neg (by push_neg; exact ⟨hw, hh⟩)]
    rw [if_pos (by simpa [specResizeTrigger] using htrig)]
    simp [backBufferResizing, resizeSwapChain, backBufferResized]
  · intro htrig
    rw [updateWindowSize]
    rw [if_neg (by push_neg; exact ⟨hw, hh⟩)]
    rw [if_neg (by simpa [specResizeTrigger] using htrig)]
    exact ⟨rfl, rfl⟩

/-- C9 witness: the amended trigger theorem applied to `c9State`: with
matching size and a vsync difference on D3D11 the trigger condition fails and
the trace is empty. -/
theorem C9_resize_trigger_witness :
    (updateWindowSize c9State (some (2, 2)) 1).2 = [] ∧
    (updateWindowSize c9State (some (2, 2)) 1).1 =
      { c9State with windowVisible := true, windowIsInFocus := true,
                     vsyncEnabled := c9State.requestedVSync } :=
  (C9_resize_trigger c9State 2 2 1 (by decide) (by decide)).2 (by decide)

/-- C6: if the backend Present() returns false during a tick in which it is
invoked, AnimateRenderPresent returns false; RunMessageLoop then exits its
loop within that same tick — its result does not depend on any later queued
tick — and the device idle-wait is the last action before RunMessageLoop
returns. -/
theorem C6_present_failure (env : PassPtr → HandlerSet) (s : DMState) (t : TickInput)
    (rest : List TickInput)
    (hvis : s.windowVisible = true)
    (hfoc : s.windowIsInFocus = true ∨ shouldRenderUnfocused env s.vRenderPasses = true)
    (hframe : 0 < s.frameIndex ∨ s.skipRenderOnFirstFrame = false)
    (hbegin : t.beginFrameOk = true)
    (hpresent : t.presentOk = false) :
    (animateRenderPresent env s t).1 = false ∧
    Event.present ∈ (animateRenderPresent env s t).2.2 ∧
    runMessageLoop env s (t :: rest) =
      ((animateRenderPresent env s t).2.1,
       (animateRenderPresent env s t).2.2 ++ [Event.waitForIdle]) := by
  have harp : (animateRenderPresent env s t).1 = false ∧
      Event.present ∈ (animateRenderPresent env s t).2.2 := by
    simp only [animateRenderPresent, if_pos (And.intro hvis hfoc), if_pos hframe,
      hbegin, hpresent]
    simp
  refine ⟨harp.1, harp.2, ?_⟩
  simp only [runMessageLoop, runMessageLoopAux, hvis, harp.1]
  simp

/-- C6 witness: the present-failure theorem applied to `testState` with a
single tick whose BeginFrame succeeds and whose Present fails. -/
theorem C6_present_failure_witness :
    (animateRenderPresent noConsumeEnv testState (TickInput.mk 1 true false)).1 = false ∧
    Event.present ∈ (animateRenderPresent noConsumeEnv testState (TickInput.mk 1 true false)).2.2 ∧
    runMessageLoop noConsumeEnv testState [TickInput.mk 1 true false] =
      ((animateRenderPresent noConsumeEnv testState (TickInput.mk 1 true false)).2.1,
       (animateRenderPresent noConsumeEnv testState (TickInput.mk 1 true false)).2.2 ++
         [Event.waitForIdle]) :=
  C6_present_failure noConsumeEnv testState (TickInput.mk 1 true false) []
    rfl (Or.inl rfl) (Or.inr rfl) rfl rfl

theorem updateAverageFrameTime_frameIndex (s : DMState) (e : ℚ) :
    (updateAverageFrameTime s e).frameIndex = s.frameIndex := by
  unfold updateAverageFrameTime
  by_cases h : s.averageTimeUpdateInterval < s.frameTimeSum + e ∧
      0 < s.numberOfAccumulatedFrames + 1
  · simp only [if_pos h]
  · simp only [if_neg h]

/-- C7: on a tick that renders and presents (window visible and in focus or
unfocused rendering requested, BeginFrame and Present succeed): when
skip-render-on-first-frame is enabled, the tick at simulation frame index 0
performs Animate only — its trace contains no BeginFrame, Render or Present
calls and no render/present hooks — and the next simulation index is 1; on
every later tick the beforeRender, afterRender, beforePresent and afterPresent
hooks receive the simulation frame index minus one while beforeAnimate and
afterAnimate receive the unmodified simulation frame index; when the mode is
disabled all hooks receive the same (unmodified) frame index and the tick at
frame index 0 already renders. -/
theorem C7_skip_render_first_frame (env : PassPtr → HandlerSet) (s : DMState) (t : TickInput)
    (hvis : s.windowVisible = true)
    (hfoc : s.windowIsInFocus = true ∨ shouldRenderUnfocused env s.vRenderPasses = true)
    (hbegin : t.beginFrameOk = true)
    (hpresent : t.presentOk = true) :
    (s.skipRenderOnFirstFrame = true → s.frameIndex = 0 →
      (animateRenderPresent env s t).2.2 =
        dpiEvents s ++
        Event.beforeAnimate 0 :: s.vRenderPasses.map Event.animatePass ++
        [Event.afterAnimate 0, Event.runGarbageCollection] ∧
      (animateRenderPresent env s t).1 = true ∧
      (animateRenderPresent env s t).2.1.frameIndex = 1) ∧
    (s.skipRenderOnFirstFrame = true → 0 < s.frameIndex →
      (animateRenderPresent env s t).2.2 =
        dpiEvents s ++
        Event.beforeAnimate s.frameIndex :: s.vRenderPasses.map Event.animatePass ++
        [Event.afterAnimate s.frameIndex, Event.beginFrame,
         Event.beforeRender (s.frameIndex - 1)] ++
        s.vRenderPasses.map Event.renderPass ++
        [Event.afterRender (s.frameIndex - 1), Event.beforePresent (s.frameIndex - 1),
         Event.present, Event.afterPresent (s.frameIndex - 1),
         Event.runGarbageCollection]) ∧
    (s.skipRenderOnFirstFrame = false →
      (animateRenderPresent env s t).2.2 =
        dpiEvents s ++
        Event.beforeAnimate s.frameIndex :: s.vRenderPasses.map Event.animatePass ++
        [Event.afterAnimate s.frameIndex, Event.beginFrame,
         Event.beforeRender s.frameIndex] ++
        s.vRenderPasses.map Event.renderPass ++
        [Event.afterRender s.frameIndex, Event.beforePresent s.frameIndex,
         Event.present, Event.afterPresent s.frameIndex,
         Event.runGarbageCollection]) := by
  refine ⟨?_, ?_, ?_⟩
  · intro hskip hfi
    have hcond : ¬ (0 < s.frameIndex ∨ s.skipRenderOnFirstFrame = false) := by
      simp [hskip, hfi]
    refine ⟨?_, ?_, ?_⟩
    · simp only [animateRenderPresent, if_pos (And.intro hvis hfoc)]
      rw [if_neg hcond]
      simp only [arpFinish, dpiEvents, hfi]
      simp
    · simp only [animateRenderPresent, if_pos (And.intro hvis hfoc)]
      rw [if_neg hcond]
      rfl
    · simp only [animateRenderPresent, if_pos (And.intro hvis hfoc)]
      rw [if_neg hcond]
      simp only [arpFinish, updateAverageFrameTime_frameIndex]
      by_cases hdpi : (s.prevDPIScaleFactorX ≠ s.dpiScaleFactorX ∨
          s.prevDPIScaleFactorY ≠ s.dpiScaleFactorY : Bool) = true
      · simp [hdpi, hfi]
      · simp [hdpi, hfi]
  · intro hskip hfi
    have hcond : 0 < s.frameIndex ∨ s.skipRenderOnFirstFrame = false := Or.inl hfi
    have hnp : ¬ t.presentOk = false := by simp [hpresent]
    simp only [animateRenderPresent, if_pos (And.intro hvis hfoc)]
    rw [if_pos hcond, if_pos hbegin, if_neg hnp]
    simp only [arpFinish, dpiEvents, hskip]
    simp
  · intro hskip
    have hcond : 0 < s.frameIndex ∨ s.skipRenderOnFirstFrame = false := Or.inr hskip
    have hnp : ¬ t.presentOk = false := by simp [hpresent]
    simp only [animateRenderPresent, if_pos (And.intro hvis hfoc)]
    rw [if_pos hcond, if_pos hbegin, if_neg hnp]
    simp only [arpFinish, dpiEvents, hskip]
    simp

/-- C7 witness: the skip theorem applied to `skipState` at simulation frame
index 0 — the first tick animates only and the next simulation index is 1. -/
theorem C7_skip_render_first_frame_witness :
    (animateRenderPresent noConsumeEnv skipState (TickInput.mk 1 true true)).2.2 =
      dpiEvents skipState ++
      Event.beforeAnimate 0 :: skipState.vRenderPasses.map Event.animatePass ++
      [Event.afterAnimate 0, Event.runGarbageCollection] ∧
    (animateRenderPresent noConsumeEnv skipState (TickInput.mk 1 true true)).1 = true ∧
    (animateRenderPresent noConsumeEnv skipState (TickInput.mk 1 true true)).2.1.frameIndex = 1 :=
  (C7_skip_render_first_frame noConsumeEnv skipState (TickInput.mk 1 true true)
    rfl (Or.inl rfl) rfl rfl).1 rfl rfl

/-- Shared helper: the full call trace of a triggered `UpdateWindowSize`. -/
theorem updateWindowSize_trigger_trace (s : DMState) (width height newCount : Nat)
    (hw : width ≠ 0) (hh : height ≠ 0)
    (htrig : s.backBufferWidth ≠ width ∨ s.backBufferHeight ≠ height ∨
      (s.vsyncEnabled ≠ s.requestedVSync ∧ s.graphicsAPI = GraphicsAPI.vulkan)) :
    (updateWindowSize s (some (width, height)) newCount).2 =
      s.vRenderPasses.map Event.passResizing ++
      [Event.resizeSwapChain] ++
      s.vRenderPasses.map (fun p => Event.passResized p width height s.swapChainSampleCount) ++
      (List.range newCount).map Event.rebuildFramebuffer := by
  rw [updateWindowSize]
  rw [if_neg (by push_neg; exact ⟨hw, hh⟩)]
  rw [if_pos (by simpa using htrig)]
  simp [backBufferResizing, resizeSwapChain, backBufferResized]

/-- Shared helper: the state after a triggered `UpdateWindowSize`. -/
theorem updateWindowSize_trigger_state (s : DMState) (width height newCount : Nat)
    (hw : width ≠ 0) (hh : height ≠ 0)
    (htrig : s.backBufferWidth ≠ width ∨ s.backBufferHeight ≠ height ∨
      (s.vsyncEnabled ≠ s.requestedVSync ∧ s.graphicsAPI = GraphicsAPI.vulkan)) :
    (updateWindowSize s (some (width, height)) newCount).1.windowVisible = true ∧
    (updateWindowSize s (some (width, height)) newCount).1.backBufferWidth = width ∧
    (updateWindowSize s (some (width, height)) newCount).1.backBufferHeight = height ∧
    (updateWindowSize s (some (width, height)) newCount).1.vRenderPasses = s.vRenderPasses := by
  rw [updateWindowSize]
  rw [if_neg (by push_neg; exact ⟨hw, hh⟩)]
  rw [if_pos (by simpa using htrig)]
  simp [backBufferResizing, resizeSwapChain, backBufferResized]

/-- C8: whenever `CreateWindowDeviceAndSwapChain` returns success for a native
window of non-zero size, the zeroing of the stored backbuffer dimensions
before `UpdateWindowSize` forces the resize sequence, so every render pass
registered at that time receives a `BackBufferResized` call carrying the
window's current width and height and the configured sample count, while the
creation itself performs no `Render` call; the final state is visible with the
window's dimensions stored. -/
theorem C8_initial_resize (s : DMState) (params : DeviceCreationParameters)
    (iOk dOk scOk : Bool) (w h newCount : Nat) (s1 : DMState) (tr : List Event)
    (hw : w ≠ 0) (hh : h ≠ 0)
    (hsucc : createWindowDeviceAndSwapChain s params iOk dOk scOk (some (w, h)) newCount =
      some (s1, tr)) :
    (∀ q ∈ s.vRenderPasses, Event.passResized q w h params.swapChainSampleCount ∈ tr) ∧
    (∀ q : PassPtr, Event.renderPass q ∉ tr) ∧
    s1.windowVisible = true ∧ s1.backBufferWidth = w ∧ s1.backBufferHeight = h := by
  cases iOk with
  | false => simp [createWindowDeviceAndSwapChain] at hsucc
  | true =>
    cases dOk with
    | false => simp [createWindowDeviceAndSwapChain] at hsucc
    | true =>
      cases scOk with
      | false => simp [createWindowDeviceAndSwapChain] at hsucc
      | true =>
        simp only [createWindowDeviceAndSwapChain, Bool.true_eq_false, if_false,
          Option.some.injEq] at hsucc
        set s2 : DMState :=
          { s with backBufferWidth := 0, backBufferHeight := 0,
                   swapChainSampleCount := params.swapChainSampleCount,
                   vsyncEnabled := params.vsyncEnabled,
                   requestedVSync := params.vsyncEnabled,
                   windowVisible := true } with hs2
        have htrig : s2.backBufferWidth ≠ w ∨ s2.backBufferHeight ≠ h ∨
            (s2.vsyncEnabled ≠ s2.requestedVSync ∧ s2.graphicsAPI = GraphicsAPI.vulkan) :=
          Or.inl (by simpa [hs2] using Ne.symm hw)
        have htr := updateWindowSize_trigger_trace s2 w h newCount hw hh htrig
        have hst := updateWindowSize_trigger_state s2 w h newCount hw hh htrig
        have heq : updateWindowSize s2 (some (w, h)) newCount = (s1, tr) := by
          rw [← hsucc]
        have htr1 : tr = s2.vRenderPasses.map Event.passResizing ++
            [Event.resizeSwapChain] ++
            s2.vRenderPasses.map
              (fun p => Event.passResized p w h s2.swapChainSampleCount) ++
            (List.range newCount).map Event.rebuildFramebuffer := by
          rw [← htr, heq]
        have hs1 : s1 = (updateWindowSize s2 (some (w, h)) newCount).1 := by
          rw [heq]
        refine ⟨?_, ?_, ?_, ?_, ?_⟩
        · intro q hq
          rw [htr1]
          simp only [List.mem_append]
          refine Or.inl (Or.inr ?_)
          simp only [List.mem_map]
          exact ⟨q, hq, rfl⟩
        · intro q
          rw [htr1]
          simp
        · rw [hs1]; exact hst.1
        · rw [hs1]; exact hst.2.1
        · rw [hs1]; exact hst.2.2.1

/-- C3 witness: the dispatch theorem applied to the list `[1, 2]` under the
non-consuming environment — both handlers run, in back-to-front order, and
each registered pass is invoked exactly once. -/
theorem C3_input_dispatch_witness :
    keyboardUpdate noConsumeEnv [1, 2] 0 0 0 0 = ([2, 1], false) ∧
    (keyboardUpdate noConsumeEnv [1, 2] 0 0 0 0).1.count 1 = 1 := by
  have h := C3_input_dispatch noConsumeEnv [1, 2] 0 0 0 0 0 0 false 1 1 0 0 0 0 0 0 0
  have h6 := h.2.2.2.2.2 (by intro p hp; rfl)
  exact ⟨h6.1, h6.2 1 (by decide) (by decide)⟩

/-- C8 witness: the creation theorem applied to `testState` with a 1280 by 720
window, 3 backbuffers and sample count 1. -/
theorem C8_initial_resize_witness :
    Event.passResized 7 1280 720 1 ∈ c8Pair.2 ∧
    (∀ q : PassPtr, Event.renderPass q ∉ c8Pair.2) ∧
    c8Pair.1.windowVisible = true := by
  have h := C8_initial_resize testState c8Params true true true 1280 720 3 c8Pair.1 c8Pair.2
    (by decide) (by decide) rfl
  exact ⟨h.1 7 (by decide), h.2.1, h.2.2.1⟩

/-- C10: `GetFramebuffer(index)` returns the stored handle exactly when
`index` is strictly below the current framebuffer count and null (`none`)
otherwise — in particular on the empty set — and `GetCurrentFramebuffer`
equals `GetFramebuffer` applied to the backend's current backbuffer index. -/
theorem C10_getFramebuffer_bounds (fbs : List Framebuffer) (i c : Nat) :
    (∀ hlt : i < fbs.length, getFramebuffer fbs i = some (fbs.get ⟨i, hlt⟩)) ∧
    (fbs.length ≤ i → getFramebuffer fbs i = none) ∧
    getFramebuffer [] i = none ∧
    getCurrentFramebuffer fbs c = getFramebuffer fbs c := by
  refine ⟨?_, ?_, ?_, rfl⟩
  · intro hlt
    rw [getFramebuffer, dif_pos hlt]
  · intro hge
    rw [getFramebuffer, dif_neg (by omega)]
  · rw [getFramebuffer, dif_neg (by simp)]

/-- C10 witness: the bounds theorem applied to a one-element framebuffer set
at indices 0 (in range) and 1 (out of range). -/
theorem C10_getFramebuffer_bounds_witness :
    getFramebuffer [Framebuffer.mk 0 0] 0 = some (Framebuffer.mk 0 0) ∧
    getFramebuffer [Framebuffer.mk 0 0] 1 = none ∧
    getCurrentFramebuffer [Framebuffer.mk 0 0] 1 = getFramebuffer [Framebuffer.mk 0 0] 1 := by
  have h0 := C10_getFramebuffer_bounds [Framebuffer.mk 0 0] 0 0
  have h1 := C10_getFramebuffer_bounds [Framebuffer.mk 0 0] 1 1
  exact ⟨h0.1 (by decide), h1.2.1 (by decide), h1.2.2.2⟩

end Donut
